import Mathlib

/-!
Shallow embedding of the ingress manifest synthesis engine of
`golang/pkg/crane/k8s/ingress.go` (dyrectorio), together with proofs of the
spec's testable properties.

Go maps are modelled as association lists with unique keys: `ainsert` is Go
map assignment `m[k] = v` (replace in place or append), `alookup` is map
indexing, `mapsCopy` is `maps.Copy(dst, src)` from `golang.org/x/exp/maps`
(for every key of `src`, assign it into `dst`).
-/

/-- Association-list model of a Go `map[string]string`. -/
abbrev AMap := List (String × String)

/-- Go map indexing `m[key]` (`none` when the key is absent). -/
def alookup : AMap → String → Option String
  | [], _ => none
  | (k, v) :: rest, key => if k = key then some v else alookup rest key

/-- Go map assignment `m[k] = v`: replaces the binding in place when the key
is present, otherwise appends it. -/
def ainsert : AMap → String → String → AMap
  | [], k, v => [(k, v)]
  | (k0, v0) :: rest, k, v =>
    if k0 = k then (k, v) :: rest else (k0, v0) :: ainsert rest k v

/-- `maps.Copy(dst, src)`: assigns every key/value of `src` into `dst`
(`ingress.go` lines 97, 100). -/
def mapsCopy (dst src : AMap) : AMap :=
  src.foldl (fun d kv => ainsert d kv.1 kv.2) dst

/-- Go standard library `strings.Join(elems, sep)`: concatenation with the
separator between consecutive elements (`ingress.go` line 187). -/
def stringsJoin : List String → String → String
  | [], _ => ""
  | [s], _ => s
  | s :: rest, sep => s ++ sep ++ stringsJoin rest sep

/-- Modelled from the spec: `util.JoinV` (package `golang/internal/util`, not
under `src/`) joins its variadic string arguments with the separator. Spec
§4.1: the host is "joined with a dot separator" as `ingressName + "." + root`
or `containerName + "." + namespace + "." + root`; spec §4.2: the TLS secret
name is `{containerName}-tls`. -/
def JoinV (sep : String) : List String → String
  | [] => ""
  | [s] => s
  | s :: rest => s ++ sep ++ JoinV sep rest

/-- `const clusterIssuerDefault = "letsencrypt-prod"` (`ingress.go` line 22). -/
def clusterIssuerDefault : String := "letsencrypt-prod"

/-- `DeployIngressOptions` (`ingress.go` lines 32-40). The Go field
`namespace` is a Lean keyword and is rendered `nspace`. Ports (`[]int32`) are
modelled as a list of integers. -/
structure DeployIngressOptions where
  nspace : String
  containerName : String
  ingressName : String
  ingressHost : String
  uploadLimit : String
  ports : List Int
  tls : Bool
  proxyHeaders : Bool
  allowedHeaders : List String
  labels : AMap
  annotations : AMap
  traefik : Bool
deriving DecidableEq

/-- The slice of `config.Configuration` consumed by the ingress engine. -/
structure Configuration where
  IngressRootDomain : String
  FieldManagerName : String
  ForceOnConflicts : Bool
deriving DecidableEq

/-- `netv1.IngressTLSApplyConfiguration` as built by `getTLSConfig`:
a host list and a secret name. -/
structure IngressTLS where
  hosts : List String
  secretName : String
deriving DecidableEq

/-- The ingress apply configuration assembled by `deployIngress`
(`ingress.go` lines 76-108): identity, metadata, the single rule
(host, path `/`, backend = containerName : ports[0]) and the optional
TLS block. -/
structure IngressManifest where
  kind : String
  apiVersion : String
  name : String
  nspace : String
  annotations : AMap
  labels : AMap
  host : String
  path : String
  pathType : String
  backendName : String
  backendPort : Int
  tls : Option IngressTLS
deriving DecidableEq

/-- Remote operations attempted against the cluster boundary. -/
inductive RemoteCall where
  | acquireClient (ns : String)
  | applyCall (manifest : IngressManifest)
  | deleteCall (ns name : String)
deriving DecidableEq

/-- The typed errors `deployIngress` can return. -/
inductive DeployError where
  | nilOptions
  | emptyPorts
  | noIngressDomain
  | applyError (msg : String)
deriving DecidableEq

/-- Observable outcome of one `deployIngress` call: the returned error (if
any), the manifest that was assembled (if control reached assembly), the
remote calls attempted, and whether the call ended in a runtime panic. -/
structure DeployResult where
  error : Option DeployError
  manifest : Option IngressManifest
  calls : List RemoteCall
  panicked : Bool
deriving DecidableEq

/-- Observable outcome of one `deleteIngress` call. -/
structure DeleteResult where
  error : Option String
  calls : List RemoteCall
  panicked : Bool
deriving DecidableEq

/-- `getTLSConfig` (`ingress.go` lines 130-137). -/
def getTLSConfig (ingressPath containerName : String) (enabled : Bool) :
    Option IngressTLS :=
  if enabled then
    some { hosts := [ingressPath], secretName := JoinV "-" [containerName, "tls"] }
  else none

/-- `getTraefikHeadersAnnotations` (`ingress.go` lines 146-161), insertions in
source order. -/
def getTraefikHeadersAnnotations (opts : DeployIngressOptions) : AMap :=
  let traefikClass := "traefik"
  let annotations : AMap := []
  let annotations := ainsert annotations "kubernetes.io/ingress.class" traefikClass
  if opts.tls then
    ainsert (ainsert (ainsert (ainsert (ainsert annotations
      "traefik.ingress.kubernetes.io/router.entrypoints" "web,websecure")
      "acme.cert-manager.io/http01-ingress-class" traefikClass)
      "traefik.ingress.kubernetes.io/router.tls" "true")
      "kubernetes.io/tls-acme" "true")
      "cert-manager.io/cluster-issuer" clusterIssuerDefault
  else
    ainsert annotations "traefik.ingress.kubernetes.io/router.entrypoints" "web"

/-- The fixed forwarding headers appended under `proxyHeaders`
(`ingress.go` line 177). -/
def nginxExtraHeaders : List String :=
  ["X-Forwarded-For", "X-Forwarded-Host", "X-Forwarded-Server", "X-Real-IP",
   "X-Requested-With"]

/-- `getNginxHeadersAnnotations` (`ingress.go` lines 163-194), insertions in
source order. -/
def getNginxHeadersAnnotations (opts : DeployIngressOptions) : AMap :=
  let annotations : AMap := []
  let annotations :=
    if opts.tls then
      ainsert (ainsert annotations "kubernetes.io/tls-acme" "true")
        "cert-manager.io/cluster-issuer" clusterIssuerDefault
    else annotations
  let annotations := ainsert annotations "kubernetes.io/ingress.class" "nginx"
  let headers : List String :=
    if opts.allowedHeaders.length > 0 then opts.allowedHeaders else []
  let headers :=
    if opts.proxyHeaders then headers ++ nginxExtraHeaders else headers
  let annotations :=
    if opts.proxyHeaders then
      ainsert (ainsert (ainsert annotations
        "nginx.ingress.kubernetes.io/enable-cors" "true")
        "nginx.ingress.kubernetes.io/proxy-buffering" "on")
        "nginx.ingress.kubernetes.io/proxy-buffer-size" "256k"
    else annotations
  let annotations :=
    if headers.length > 0 then
      ainsert annotations "nginx.ingress.kubernetes.io/cors-allow-headers"
        (stringsJoin headers ", ")
    else annotations
  if opts.uploadLimit ≠ "" then
    ainsert annotations "nginx.ingress.kubernetes.io/proxy-body-size" opts.uploadLimit
  else annotations

/-- `getIngressAnnotations` (`ingress.go` lines 139-144). -/
def getIngressAnnotations (opts : DeployIngressOptions) : AMap :=
  if opts.traefik then getTraefikHeadersAnnotations opts
  else getNginxHeadersAnnotations opts

/-- Root-domain selection of `deployIngress` (`ingress.go` lines 60-67):
`ingressHost` wins, else the configured root domain, else no usable root. -/
def ingressRootOf (cfg : Configuration) (opts : DeployIngressOptions) :
    Option String :=
  if opts.ingressHost ≠ "" then some opts.ingressHost
  else if cfg.IngressRootDomain ≠ "" then some cfg.IngressRootDomain
  else none

/-- Host derivation of `deployIngress` (`ingress.go` lines 69-74). -/
def ingressPathOf (opts : DeployIngressOptions) (ingressRoot : String) : String :=
  if opts.ingressName ≠ "" then JoinV "." [opts.ingressName, ingressRoot]
  else JoinV "." [opts.containerName, opts.nspace, ingressRoot]

/-- Manifest assembly of `deployIngress` (`ingress.go` lines 76-108): spec,
TLS block when `getTLSConfig` returns one, generated annotations overlaid by
the user annotations via `maps.Copy`, labels copied into a fresh map. -/
def buildManifest (opts : DeployIngressOptions) (ingressPath : String) :
    IngressManifest :=
  { kind := "Ingress"
    apiVersion := "networking.k8s.io/v1"
    name := opts.containerName
    nspace := opts.nspace
    annotations := mapsCopy (getIngressAnnotations opts) opts.annotations
    labels := mapsCopy [] opts.labels
    host := ingressPath
    path := "/"
    pathType := "ImplementationSpecific"
    backendName := opts.containerName
    backendPort := opts.ports.headD 0
    tls := getTLSConfig ingressPath opts.containerName opts.tls }

/-- `deployIngress` (`ingress.go` lines 46-119). `acquire` is the result of
`getIngressClient`, `applyErr` the error returned by the cluster `Apply`.
A failed acquisition is only logged (lines 52-54) and `client` stays nil, so
the later `client.Apply` (line 110) is a method call on a nil interface — a
Go runtime panic, recorded as `panicked := true` with no apply call reaching
the cluster. -/
def deployIngress (cfg : Configuration) (acquire : Except String Unit)
    (applyErr : Option String) (options : Option DeployIngressOptions) :
    DeployResult :=
  match options with
  | none => ⟨some .nilOptions, none, [], false⟩
  | some opts =>
    let calls := [RemoteCall.acquireClient opts.nspace]
    if opts.ports = [] then ⟨some .emptyPorts, none, calls, false⟩
    else
      match ingressRootOf cfg opts with
      | none => ⟨some .noIngressDomain, none, calls, false⟩
      | some ingressRoot =>
        let manifest := buildManifest opts (ingressPathOf opts ingressRoot)
        match acquire with
        | .error _ => ⟨none, some manifest, calls, true⟩
        | .ok _ =>
          ⟨applyErr.map .applyError, some manifest,
            calls ++ [.applyCall manifest], false⟩

/-- `deleteIngress` (`ingress.go` lines 121-128): a failed client acquisition
is `panic(err)` (line 124); otherwise the delete call's result is returned. -/
def deleteIngress (acquire : Except String Unit) (deleteErr : Option String)
    (ns name : String) : DeleteResult :=
  match acquire with
  | .error _ => ⟨none, [RemoteCall.acquireClient ns], true⟩
  | .ok _ => ⟨deleteErr, [RemoteCall.acquireClient ns, .deleteCall ns name], false⟩

/-- Whether a remote call is a write against the cluster's ingress store. -/
def RemoteCall.isStoreCall : RemoteCall → Bool
  | .applyCall _ => true
  | .deleteCall _ _ => true
  | .acquireClient _ => false

/-! ### Lemmas about the Go-map model -/

theorem alookup_ainsert_self (m : AMap) (k v : String) :
    alookup (ainsert m k v) k = some v := by
  induction m with
  | nil => simp [ainsert, alookup]
  | cons hd tl ih =>
    obtain ⟨k0, v0⟩ := hd
    by_cases h : k0 = k
    · simp [ainsert, h, alookup]
    · simp [ainsert, h, alookup, ih]

theorem alookup_ainsert_other (m : AMap) (k v key : String) (h : k ≠ key) :
    alookup (ainsert m k v) key = alookup m key := by
  induction m with
  | nil => simp [ainsert, alookup, h]
  | cons hd tl ih =>
    obtain ⟨k0, v0⟩ := hd
    by_cases h0 : k0 = k
    · subst h0
      simp [ainsert, alookup, h]
    · simp [ainsert, h0, alookup, ih]

theorem alookup_append (xs ys : AMap) (key : String) :
    alookup (xs ++ ys) key =
      match alookup xs key with
      | some v => some v
      | none => alookup ys key := by
  induction xs with
  | nil => simp [alookup]
  | cons hd tl ih =>
    obtain ⟨k0, v0⟩ := hd
    by_cases h : k0 = key
    · simp [alookup, h]
    · simp [alookup, h, ih]

theorem mapsCopy_nil (dst : AMap) : mapsCopy dst [] = dst := rfl

theorem mapsCopy_cons (dst : AMap) (k v : String) (rest : AMap) :
    mapsCopy dst ((k, v) :: rest) = mapsCopy (ainsert dst k v) rest := rfl

/-- The lookup in `maps.Copy(dst, src)`: the last binding of the key in `src`
wins, and `dst` only answers for keys absent from `src`. -/
theorem alookup_mapsCopy (src : AMap) (dst : AMap) (key : String) :
    alookup (mapsCopy dst src) key =
      match alookup src.reverse key with
      | some v => some v
      | none => alookup dst key := by
  induction src generalizing dst with
  | nil => simp [mapsCopy_nil, alookup]
  | cons hd tl ih =>
    obtain ⟨k0, v0⟩ := hd
    rw [mapsCopy_cons, ih]
    rw [List.reverse_cons, alookup_append]
    cases htl : alookup tl.reverse key with
    | some v => rfl
    | none =>
      by_cases h : k0 = key
      · subst h
        simp [alookup, alookup_ainsert_self]
      · simp [alookup, h, alookup_ainsert_other _ _ _ _ h]

theorem alookup_eq_none_of_not_mem (m : AMap) (key : String)
    (h : key ∉ m.map Prod.fst) : alookup m key = none := by
  induction m with
  | nil => rfl
  | cons hd tl ih =>
    obtain ⟨k0, v0⟩ := hd
    simp only [List.map_cons, List.mem_cons] at h
    push_neg at h
    have hk : ¬ k0 = key := fun he => h.1 he.symm
    simp [alookup, hk, ih h.2]

/-- When `m` has unique keys (every Go map does), lookup is insensitive to
reversal. -/
theorem alookup_reverse_of_nodup (m : AMap) (h : (m.map Prod.fst).Nodup)
    (key : String) : alookup m.reverse key = alookup m key := by
  induction m with
  | nil => rfl
  | cons hd tl ih =>
    obtain ⟨k0, v0⟩ := hd
    simp only [List.map_cons, List.nodup_cons] at h
    rw [List.reverse_cons, alookup_append, ih h.2]
    by_cases hk : k0 = key
    · subst hk
      rw [alookup_eq_none_of_not_mem tl k0 h.1]
      simp [alookup]
    · cases htl : alookup tl key with
      | some v => simp [alookup, hk, htl]
      | none => simp [alookup, hk, htl]

/-! ### Concrete sample inputs used by the witnesses -/

/-- A sample configuration with a configured root domain. -/
def sampleCfg : Configuration :=
  { IngressRootDomain := "cluster.local"
    FieldManagerName := "crane"
    ForceOnConflicts := false }

/-- Sample nginx-flavor options: TLS on, proxy headers on, one allowed
header, a user annotation overriding the generated cluster-issuer. -/
def sampleOpts : DeployIngressOptions :=
  { nspace := "default"
    containerName := "web"
    ingressName := ""
    ingressHost := "example.com"
    uploadLimit := ""
    ports := [80]
    tls := true
    proxyHeaders := true
    allowedHeaders := ["X-Custom"]
    labels := []
    annotations := [("cert-manager.io/cluster-issuer", "letsencrypt-staging")]
    traefik := false }

/-- Sample traefik-flavor options without TLS. -/
def traefikOpts : DeployIngressOptions :=
  { nspace := "default"
    containerName := "web"
    ingressName := ""
    ingressHost := "example.com"
    uploadLimit := ""
    ports := [80]
    tls := false
    proxyHeaders := false
    allowedHeaders := []
    labels := []
    annotations := []
    traefik := true }

/-! ### Claim theorems -/

/-- C9: the user-override annotation merge is idempotent: overlaying the user
mapping `U` onto a generated set `G` twice yields the same AnnotationSet
(extensionally, i.e. as a map) as overlaying it once. -/
theorem merge_idempotent (G U : AMap) (k : String) :
    alookup (mapsCopy (mapsCopy G U) U) k = alookup (mapsCopy G U) k := by
  rw [alookup_mapsCopy U (mapsCopy G U) k, alookup_mapsCopy U G k]
  cases h : alookup U.reverse k <;> simp

/-- C6: the final AnnotationSet of `deployIngress` contains every
user-supplied annotation key with its user-supplied value; on a key present
in both the generated set and the user mapping, the user value wins. -/
theorem user_annotations_override (opts : DeployIngressOptions)
    (k v : String) (hnd : (opts.annotations.map Prod.fst).Nodup)
    (h : alookup opts.annotations k = some v) :
    alookup (mapsCopy (getIngressAnnotations opts) opts.annotations) k
      = some v := by
  rw [alookup_mapsCopy, alookup_reverse_of_nodup _ hnd, h]

/-- Witness for C6: the user-supplied cluster-issuer overrides the generated
`letsencrypt-prod` value. -/
theorem user_annotations_override_witness :
    (sampleOpts.annotations.map Prod.fst).Nodup ∧
    alookup sampleOpts.annotations "cert-manager.io/cluster-issuer"
      = some "letsencrypt-staging" ∧
    alookup (getIngressAnnotations sampleOpts) "cert-manager.io/cluster-issuer"
      = some clusterIssuerDefault ∧
    alookup (mapsCopy (getIngressAnnotations sampleOpts) sampleOpts.annotations)
        "cert-manager.io/cluster-issuer" = some "letsencrypt-staging" :=
  ⟨by decide, by decide, by decide,
    user_annotations_override sampleOpts _ _ (by decide) (by decide)⟩

/-- C2: on empty ports, `deployIngress` returns the distinct empty-ports
configuration error, assembles no manifest, and attempts no call against the
cluster's ingress store before returning. -/
theorem deployIngress_empty_ports (cfg : Configuration)
    (acquire : Except String Unit) (applyErr : Option String)
    (opts : DeployIngressOptions) (h : opts.ports = []) :
    (deployIngress cfg acquire applyErr (some opts)).error
      = some DeployError.emptyPorts ∧
    (deployIngress cfg acquire applyErr (some opts)).manifest = none ∧
    (deployIngress cfg acquire applyErr (some opts)).calls.filter
      RemoteCall.isStoreCall = [] ∧
    DeployError.emptyPorts ≠ DeployError.noIngressDomain := by
  simp [deployIngress, h, RemoteCall.isStoreCall]

/-- Witness for C2 at concrete empty-ports options. -/
theorem deployIngress_empty_ports_witness :
    { sampleOpts with ports := [] }.ports = [] ∧
    (deployIngress sampleCfg (Except.ok ()) none
        (some { sampleOpts with ports := [] })).error
      = some DeployError.emptyPorts ∧
    (deployIngress sampleCfg (Except.ok ()) none
        (some { sampleOpts with ports := [] })).manifest = none :=
  have h := deployIngress_empty_ports sampleCfg (Except.ok ()) none
    { sampleOpts with ports := [] } (by decide)
  ⟨by decide, h.1, h.2.1⟩

/-- C8: under the Alternative (traefik) flavor with TLS disabled the
generated set is exactly the ingress-class marker and the single plain-web
entrypoint annotation, with no certificate-issuer, TLS-ACME, HTTP-01 or
router-TLS key. -/
theorem traefik_no_tls_annotations (opts : DeployIngressOptions)
    (h : opts.tls = false) :
    getTraefikHeadersAnnotations opts =
      [("kubernetes.io/ingress.class", "traefik"),
       ("traefik.ingress.kubernetes.io/router.entrypoints", "web")] ∧
    alookup (getTraefikHeadersAnnotations opts)
      "cert-manager.io/cluster-issuer" = none ∧
    alookup (getTraefikHeadersAnnotations opts)
      "kubernetes.io/tls-acme" = none ∧
    alookup (getTraefikHeadersAnnotations opts)
      "acme.cert-manager.io/http01-ingress-class" = none ∧
    alookup (getTraefikHeadersAnnotations opts)
      "traefik.ingress.kubernetes.io/router.tls" = none := by
  have he : getTraefikHeadersAnnotations opts =
      [("kubernetes.io/ingress.class", "traefik"),
       ("traefik.ingress.kubernetes.io/router.entrypoints", "web")] := by
    simp only [getTraefikHeadersAnnotations, h]
    decide
  refine ⟨he, ?_, ?_, ?_, ?_⟩ <;> rw [he] <;> decide

/-- Witness for C8 at concrete traefik options without TLS. -/
theorem traefik_no_tls_annotations_witness :
    traefikOpts.tls = false ∧
    getTraefikHeadersAnnotations traefikOpts =
      [("kubernetes.io/ingress.class", "traefik"),
       ("traefik.ingress.kubernetes.io/router.entrypoints", "web")] :=
  ⟨by decide, (traefik_no_tls_annotations traefikOpts (by decide)).1⟩

/-- C10: under the Standard (nginx) flavor with a non-empty allow-list and
`proxyHeaders=false`, the cors-allow-headers annotation carries the joined
allow-list while enable-cors, proxy-buffering and proxy-buffer-size are all
absent. -/
theorem nginx_headers_without_cors (opts : DeployIngressOptions)
    (hA : opts.allowedHeaders ≠ []) (hP : opts.proxyHeaders = false) :
    alookup (getNginxHeadersAnnotations opts)
        "nginx.ingress.kubernetes.io/cors-allow-headers"
      = some (stringsJoin opts.allowedHeaders ", ") ∧
    alookup (getNginxHeadersAnnotations opts)
        "nginx.ingress.kubernetes.io/enable-cors" = none ∧
    alookup (getNginxHeadersAnnotations opts)
        "nginx.ingress.kubernetes.io/proxy-buffering" = none ∧
    alookup (getNginxHeadersAnnotations opts)
        "nginx.ingress.kubernetes.io/proxy-buffer-size" = none := by
  have hlen : opts.allowedHeaders.length > 0 := List.length_pos.mpr hA
  simp only [getNginxHeadersAnnotations, hP, hlen]
  by_cases htls : opts.tls = true <;>
    by_cases hup : opts.uploadLimit = "" <;>
      simp [htls, hup, alookup_ainsert_self, alookup_ainsert_other, hlen,
        alookup]

/-- Witness for C10: one allowed header, proxy headers off. -/
theorem nginx_headers_without_cors_witness :
    { sampleOpts with proxyHeaders := false }.allowedHeaders ≠ [] ∧
    { sampleOpts with proxyHeaders := false }.proxyHeaders = false ∧
    alookup (getNginxHeadersAnnotations { sampleOpts with proxyHeaders := false })
        "nginx.ingress.kubernetes.io/cors-allow-headers"
      = some (stringsJoin { sampleOpts with proxyHeaders := false }.allowedHeaders ", ") :=
  ⟨by decide, by decide,
    (nginx_headers_without_cors { sampleOpts with proxyHeaders := false }
      (by decide) (by decide)).1⟩

/-- Counterexample for C3: with `proxyHeaders=true`, non-empty
`allowedHeaders` and an empty `uploadLimit`, the proxy-body-size annotation
is absent from the generated nginx set, so the body-size annotation is not
always present as the claim states. -/
theorem nginx_body_size_absent_counterexample :
    sampleOpts.proxyHeaders = true ∧ sampleOpts.allowedHeaders ≠ [] ∧
    sampleOpts.traefik = false ∧ sampleOpts.uploadLimit = "" ∧
    alookup (getNginxHeadersAnnotations sampleOpts)
      "nginx.ingress.kubernetes.io/proxy-body-size" = none := by
  decide

/-- C3 (amended): nginx flavor with `proxyHeaders=true` and non-empty
`allowedHeaders`: the cors-allow-headers annotation is the allowed headers
followed by the five fixed forwarding headers joined with ", ", enable-cors
is "true", proxy buffering is on with the fixed 256k buffer size, and the
proxy-body-size annotation is present (with the pass-through uploadLimit
value) precisely when uploadLimit is non-empty. -/
theorem nginx_proxy_headers_annotations (opts : DeployIngressOptions)
    (hA : opts.allowedHeaders ≠ []) (hP : opts.proxyHeaders = true) :
    alookup (getNginxHeadersAnnotations opts)
        "nginx.ingress.kubernetes.io/cors-allow-headers"
      = some (stringsJoin (opts.allowedHeaders ++
          ["X-Forwarded-For", "X-Forwarded-Host", "X-Forwarded-Server",
           "X-Real-IP", "X-Requested-With"]) ", ") ∧
    alookup (getNginxHeadersAnnotations opts)
        "nginx.ingress.kubernetes.io/enable-cors" = some "true" ∧
    alookup (getNginxHeadersAnnotations opts)
        "nginx.ingress.kubernetes.io/proxy-buffering" = some "on" ∧
    alookup (getNginxHeadersAnnotations opts)
        "nginx.ingress.kubernetes.io/proxy-buffer-size" = some "256k" ∧
    alookup (getNginxHeadersAnnotations opts)
        "nginx.ingress.kubernetes.io/proxy-body-size"
      = (if opts.uploadLimit ≠ "" then some opts.uploadLimit else none) := by
  have hlen : opts.allowedHeaders.length > 0 := List.length_pos.mpr hA
  have hlen2 : (opts.allowedHeaders ++ nginxExtraHeaders).length > 0 := by
    simp [List.length_append]
    omega
  simp only [getNginxHeadersAnnotations, hP, hlen, nginxExtraHeaders]
  by_cases htls : opts.tls = true <;>
    by_cases hup : opts.uploadLimit = "" <;>
      simp [htls, hup, alookup_ainsert_self, alookup_ainsert_other, hlen,
        hlen2, nginxExtraHeaders, alookup]

/-- Witness for C3 (amended) at concrete options with a non-empty upload
limit. -/
theorem nginx_proxy_headers_annotations_witness :
    { sampleOpts with uploadLimit := "10m" }.allowedHeaders ≠ [] ∧
    { sampleOpts with uploadLimit := "10m" }.proxyHeaders = true ∧
    alookup (getNginxHeadersAnnotations { sampleOpts with uploadLimit := "10m" })
        "nginx.ingress.kubernetes.io/cors-allow-headers"
      = some (stringsJoin ({ sampleOpts with uploadLimit := "10m" }.allowedHeaders ++
          ["X-Forwarded-For", "X-Forwarded-Host", "X-Forwarded-Server",
           "X-Real-IP", "X-Requested-With"]) ", ") :=
  ⟨by decide, by decide,
    (nginx_proxy_headers_annotations { sampleOpts with uploadLimit := "10m" }
      (by decide) (by decide)).1⟩

/-- C4: with a usable root domain, the resolved host is
`ingressName + "." + root` when `ingressName` is non-empty (independently of
containerName/namespace), else `containerName + "." + namespace + "." + root`. -/
theorem deployIngress_resolved_host (cfg : Configuration)
    (acquire : Except String Unit) (applyErr : Option String)
    (opts : DeployIngressOptions) (root : String)
    (hports : opts.ports ≠ []) (hroot : ingressRootOf cfg opts = some root) :
    ∃ m, (deployIngress cfg acquire applyErr (some opts)).manifest = some m ∧
      m.host = (if opts.ingressName ≠ "" then opts.ingressName ++ "." ++ root
        else opts.containerName ++ "." ++ opts.nspace ++ "." ++ root) := by
  refine ⟨buildManifest opts (ingressPathOf opts root), ?_, ?_⟩
  · simp only [deployIngress, hroot]
    rw [if_neg hports]
    cases acquire <;> simp
  · simp only [buildManifest, ingressPathOf, JoinV]
    split
    · rfl
    · simp [String.append_assoc]

/-- Witness for C4 at concrete options with empty ingressName. -/
theorem deployIngress_resolved_host_witness :
    sampleOpts.ports ≠ [] ∧
    ingressRootOf sampleCfg sampleOpts = some "example.com" ∧
    ∃ m, (deployIngress sampleCfg (Except.ok ()) none
        (some sampleOpts)).manifest = some m ∧
      m.host = (if sampleOpts.ingressName ≠ ""
        then sampleOpts.ingressName ++ "." ++ "example.com"
        else sampleOpts.containerName ++ "." ++ sampleOpts.nspace ++ "."
          ++ "example.com") :=
  ⟨by decide, by decide,
    deployIngress_resolved_host sampleCfg (Except.ok ()) none sampleOpts
      "example.com" (by decide) (by decide)⟩

/-- C5: root selection priority: a non-empty `ingressHost` is the root
verbatim (whatever the configured root domain is); else a non-empty
configured root domain is the root; else `deployIngress` fails with the
no-domain configuration error and produces no manifest. -/
theorem deployIngress_root_priority (cfg : Configuration)
    (acquire : Except String Unit) (applyErr : Option String)
    (opts : DeployIngressOptions) (hports : opts.ports ≠ []) :
    (opts.ingressHost ≠ "" → ingressRootOf cfg opts = some opts.ingressHost) ∧
    (opts.ingressHost = "" → cfg.IngressRootDomain ≠ "" →
      ingressRootOf cfg opts = some cfg.IngressRootDomain) ∧
    (opts.ingressHost = "" → cfg.IngressRootDomain = "" →
      (deployIngress cfg acquire applyErr (some opts)).error
        = some DeployError.noIngressDomain ∧
      (deployIngress cfg acquire applyErr (some opts)).manifest = none) := by
  refine ⟨?_, ?_, ?_⟩
  · intro h
    simp [ingressRootOf, h]
  · intro h1 h2
    simp [ingressRootOf, h1, h2]
  · intro h1 h2
    have hr : ingressRootOf cfg opts = none := by simp [ingressRootOf, h1, h2]
    simp only [deployIngress, hr]
    rw [if_neg hports]
    simp

/-- Witness for C5: ingressHost wins although a root domain is configured. -/
theorem deployIngress_root_priority_witness :
    sampleOpts.ports ≠ [] ∧ sampleOpts.ingressHost ≠ "" ∧
    sampleCfg.IngressRootDomain ≠ "" ∧
    ingressRootOf sampleCfg sampleOpts = some sampleOpts.ingressHost :=
  ⟨by decide, by decide, by decide,
    (deployIngress_root_priority sampleCfg (Except.ok ()) none sampleOpts
      (by decide)).1 (by decide)⟩

/-- C7: with a usable root domain, the manifest carries a TLS block with
hosts exactly the resolved host and secret name `containerName + "-tls"`
when tls is enabled, and no TLS block when tls is disabled. -/
theorem deployIngress_tls_block (cfg : Configuration)
    (acquire : Except String Unit) (applyErr : Option String)
    (opts : DeployIngressOptions) (root : String)
    (hports : opts.ports ≠ []) (hroot : ingressRootOf cfg opts = some root) :
    ∃ m, (deployIngress cfg acquire applyErr (some opts)).manifest = some m ∧
      m.tls = (if opts.tls then
          some { hosts := [m.host],
                 secretName := opts.containerName ++ "-tls" }
        else none) := by
  refine ⟨buildManifest opts (ingressPathOf opts root), ?_, ?_⟩
  · simp only [deployIngress, hroot]
    rw [if_neg hports]
    cases acquire <;> simp
  · simp only [buildManifest, getTLSConfig, JoinV]
    split
    · rw [String.append_assoc]
      rfl
    · rfl

/-- Witness for C7 at concrete options with TLS enabled. -/
theorem deployIngress_tls_block_witness :
    sampleOpts.ports ≠ [] ∧
    ingressRootOf sampleCfg sampleOpts = some "example.com" ∧
    sampleOpts.tls = true ∧
    ∃ m, (deployIngress sampleCfg (Except.ok ()) none
        (some sampleOpts)).manifest = some m ∧
      m.tls = (if sampleOpts.tls then
          some { hosts := [m.host],
                 secretName := sampleOpts.containerName ++ "-tls" }
        else none) :=
  ⟨by decide, by decide, by decide,
    deployIngress_tls_block sampleCfg (Except.ok ()) none sampleOpts
      "example.com" (by decide) (by decide)⟩

/-- C1: observed behavior on client-acquisition failure. `deleteIngress`
ends in a fatal abort (the source's `panic(err)`) and returns no typed
error; `deployIngress` only logs the acquisition failure, proceeds as if
acquisition had succeeded, and ends in a runtime panic at the nil-client
`Apply` call instead of returning a typed error. -/
theorem client_acquisition_failure_aborts :
    (deleteIngress (Except.error "connection refused") none "default"
      "web").panicked = true ∧
    (deleteIngress (Except.error "connection refused") none "default"
      "web").error = none ∧
    (deployIngress sampleCfg (Except.error "connection refused") none
      (some sampleOpts)).panicked = true ∧
    (deployIngress sampleCfg (Except.error "connection refused") none
      (some sampleOpts)).error = none := by
  decide
